import Mathlib

/-!
Verification of `zipline.modelling.pipeline.Pipeline` (src/zipline/modelling/pipeline.py).

The Pipeline container owns a name, a mapping of column name to Term, and an
optional screen (a Filter term).  We embed Python dicts with string keys as
association lists (Python dicts keep keys unique; lookup, assignment, `pop`
and `copy` are modelled below), Python exceptions as an inductive error type,
and each mutating method as a function returning the container state after the
call together with the outcome (result or raised error).
-/

set_option autoImplicit false

/-- Modelled from the spec: the term hierarchy (zipline.modelling.term /
factor / filter / classifier) is an external collaborator, treated as opaque
values with a capability tag.  `Filter` is the sub-capability of `Term` used
for screens; a bare Factor is a Term but not a Filter. -/
inductive TermKind
| factor
| filterKind
| classifier
deriving DecidableEq, Repr

/-- Modelled from the spec: an opaque computation node.  The container never
inspects term internals; only identity (for mapping values) and the capability
tag matter. -/
structure Term where
  tid : Nat
  kind : TermKind
deriving DecidableEq, Repr

def Term.isFilterCap (t : Term) : Bool :=
  t.kind = TermKind.filterKind

/-- A Python dict with string keys and Term values, as an association list. -/
abbrev Dict := List (String × Term)

/-- Python `name in columns`. -/
def dictContains (d : Dict) (k : String) : Bool :=
  d.any (fun kv => kv.1 = k)

/-- Python `columns[name]` as a partial lookup (first matching key). -/
def dictGet? (d : Dict) (k : String) : Option Term :=
  match d with
  | [] => none
  | (k1, v1) :: rest => if k1 = k then some v1 else dictGet? rest k

/-- Python `columns[name] = term`: replace the value if the key is present,
otherwise append the new entry. -/
def dictSet (d : Dict) (k : String) (v : Term) : Dict :=
  match d with
  | [] => [(k, v)]
  | (k1, v1) :: rest => if k1 = k then (k, v) :: rest else (k1, v1) :: dictSet rest k v

/-- Python `columns.pop(name)`: remove the entry and return its value, or
`none` when the key is absent (the caller raises `KeyError(name)`). -/
def dictPop (d : Dict) (k : String) : Option (Term × Dict) :=
  match d with
  | [] => none
  | (k1, v1) :: rest =>
    if k1 = k then some (v1, rest)
    else match dictPop rest k with
      | none => none
      | some (v, d1) => some (v, (k1, v1) :: d1)

/-- Python `columns.copy()`: a shallow copy; on immutable values this is the
same mapping. -/
def dictCopy (d : Dict) : Dict := d

/-- Keys of a Python dict are unique; this invariant is guaranteed by the
dict datatype itself. -/
def dictNodupKeys (d : Dict) : Bool :=
  match d with
  | [] => true
  | (k1, _) :: rest => !dictContains rest k1 && dictNodupKeys rest

/-- Python values as they reach the argument-validation decorator: a string,
a dict, a Term instance, `None`, or anything else (e.g. an int). -/
inductive PyVal
| str (s : String)
| dict (d : Dict)
| term (t : Term)
| pyNone
| intV (n : Int)
deriving DecidableEq, Repr

def PyVal.isStr : PyVal → Bool
  | PyVal.str _ => true
  | _ => false

def PyVal.isDict : PyVal → Bool
  | PyVal.dict _ => true
  | _ => false

def PyVal.isTerm : PyVal → Bool
  | PyVal.term _ => true
  | _ => false

def PyVal.isFilterVal : PyVal → Bool
  | PyVal.term t => t.isFilterCap
  | _ => false

def PyVal.isNone : PyVal → Bool
  | PyVal.pyNone => true
  | _ => false

/-- The exceptions raised by the container: `TypeError` from the
argument-validation decorator, `KeyError` with its args tuple, and
`ValueError` with its message. -/
inductive PyErr
| typeErr
| keyErr (args : List String)
| valueErr (msg : String)
deriving DecidableEq, Repr

/-- A single quote character, used in the key-collision message. -/
def squote : String := String.singleton (Char.ofNat 39)

/-- The message of the `KeyError` raised by `add` on a collision:
`"Column '{}' already exists.".format(name)`. -/
def keyCollisionMsg (name : String) : String :=
  "Column " ++ squote ++ name ++ squote ++ " already exists."

/-- The literal message of the `ValueError` raised by `set_screen` when a
screen is already set and `overwrite` is false. -/
def setScreenMsg : String :=
  "set_screen() called with overwrite=False and screen already set.\n" ++
  "If you want to apply multiple filters as a screen use " ++
  "set_screen(filter1 & filter2 & ...).\n" ++
  "If you want to replace the previous screen with a new one, " ++
  "use set_screen(new_filter, overwrite=True)."

/-- The state of a `Pipeline` instance: slots `_name`, `_columns`, `_screen`. -/
structure Pipeline where
  pname : String
  pcolumns : Dict
  pscreen : Option Term
deriving DecidableEq, Repr

/-- The `name` property. -/
def Pipeline.name (p : Pipeline) : String := p.pname

/-- The `columns` property (returns the live mapping). -/
def Pipeline.columns (p : Pipeline) : Dict := p.pcolumns

/-- The `screen` property. -/
def Pipeline.screen (p : Pipeline) : Option Term := p.pscreen

/-- Modelled from the spec: `expect_types` (zipline.utils.preprocess, not
under src/) validates each declared argument before the wrapped body runs and
raises `TypeError` on a mismatch, before any state is set.  `__init__` is
declared with `name=str, columns=optional(dict), screen=optional(Filter)`;
on success it stores `name`, the given columns dict (or a fresh empty one when
`None`), and the screen. -/
def Pipeline.init (name columns screen : PyVal) : Except PyErr Pipeline :=
  if !name.isStr then Except.error PyErr.typeErr
  else if !(columns.isNone || columns.isDict) then Except.error PyErr.typeErr
  else if !(screen.isNone || screen.isFilterVal) then Except.error PyErr.typeErr
  else
    Except.ok
      { pname := match name with | PyVal.str s => s | _ => ""
        pcolumns := match columns with | PyVal.dict d => d | _ => []
        pscreen := match screen with | PyVal.term t => some t | _ => none }

/-- `remove(name)` body: `return self.columns.pop(name)`.  Returns the
container state after the call and either the removed term or the raised
`KeyError(name)` (whose args tuple is the one-element tuple `(name,)`). -/
def Pipeline.remove (p : Pipeline) (name : String) : Pipeline × Except PyErr Term :=
  match dictPop p.pcolumns name with
  | some (t, d) => ({ p with pcolumns := d }, Except.ok t)
  | none => (p, Except.error (PyErr.keyErr [name]))

/-- `add(term, name, overwrite)` body: check membership in the live columns
mapping; on a collision either route through `remove` (overwrite) or raise
`KeyError("Column '{}' already exists.".format(name))`; finally assign
`self._columns[name] = term`. -/
def Pipeline.add (p : Pipeline) (term : Term) (name : String) (overwrite : Bool) :
    Pipeline × Except PyErr Unit :=
  let columns := p.columns
  if dictContains columns name then
    if overwrite then
      let (p1, r) := p.remove name
      match r with
      | Except.error e => (p1, Except.error e)
      | Except.ok _ => ({ p1 with pcolumns := dictSet p1.pcolumns name term }, Except.ok ())
    else
      (p, Except.error (PyErr.keyErr [keyCollisionMsg name]))
  else
    ({ p with pcolumns := dictSet p.pcolumns name term }, Except.ok ())

/-- `set_screen(screen, overwrite)` body: raise `ValueError` with the literal
remediation message when a screen is already set and `overwrite` is false;
otherwise assign the new screen. -/
def Pipeline.set_screen (p : Pipeline) (screen : Term) (overwrite : Bool) :
    Pipeline × Except PyErr Unit :=
  if p.pscreen.isSome && !overwrite then
    (p, Except.error (PyErr.valueErr setScreenMsg))
  else
    ({ p with pscreen := some screen }, Except.ok ())

/-- Modelled from the spec: the external graph compiler
(zipline.modelling.graph.TermGraph, not under src/) accepts a name-to-Term
mapping and returns an opaque compiled artifact; we record exactly the mapping
it was handed. -/
structure TermGraph where
  handed : Dict
deriving DecidableEq, Repr

/-- `to_graph(screen_name, default_screen)` body: shallow-copy the columns,
resolve the effective screen (`screen` if set, else `default_screen`), bind it
under `screen_name` in the copy, and hand the copy to `TermGraph`.  The
container state after the call is returned alongside the artifact. -/
def Pipeline.to_graph (p : Pipeline) (screen_name : String) (default_screen : Term) :
    Pipeline × TermGraph :=
  let columns := dictCopy p.columns
  let scr := match p.screen with
    | none => default_screen
    | some s => s
  let columns := dictSet columns screen_name scr
  (p, TermGraph.mk columns)

/-- `add` as called from Python, through the `expect_types(term=Term,
name=str)` decorator (modelled from the spec): arguments of the wrong type
raise `TypeError` before the body runs. -/
def Pipeline.addPy (p : Pipeline) (term name : PyVal) (overwrite : Bool) :
    Pipeline × Except PyErr Unit :=
  match term, name with
  | PyVal.term t, PyVal.str s => p.add t s overwrite
  | _, _ => (p, Except.error PyErr.typeErr)

/-- `remove` as called from Python, through `expect_types(name=str)`
(modelled from the spec). -/
def Pipeline.removePy (p : Pipeline) (name : PyVal) : Pipeline × Except PyErr Term :=
  match name with
  | PyVal.str s => p.remove s
  | _ => (p, Except.error PyErr.typeErr)

/-- `set_screen` as called from Python, through `expect_types(screen=Filter)`
(modelled from the spec): a value that is not a Filter instance (even a Term
such as a bare Factor) raises `TypeError` before the body runs. -/
def Pipeline.set_screenPy (p : Pipeline) (screen : PyVal) (overwrite : Bool) :
    Pipeline × Except PyErr Unit :=
  match screen with
  | PyVal.term t =>
    if t.isFilterCap then p.set_screen t overwrite
    else (p, Except.error PyErr.typeErr)
  | _ => (p, Except.error PyErr.typeErr)

/-! ### Concrete terms and pipelines used as witnesses -/

/-- A factor term (as in the unit tests, a Term that is not a Filter). -/
def someFactor : Term := { tid := 0, kind := TermKind.factor }

/-- A second, distinct factor term. -/
def someOtherFactor : Term := { tid := 1, kind := TermKind.factor }

/-- A filter term. -/
def someFilter : Term := { tid := 2, kind := TermKind.filterKind }

/-- A second, distinct filter term. -/
def someOtherFilter : Term := { tid := 3, kind := TermKind.filterKind }

/-- A pipeline holding one column, as built by the unit tests. -/
def pipeF : Pipeline :=
  { pname := "test", pcolumns := [("f", someFactor)], pscreen := none }

/-- A pipeline with a screen already set. -/
def pipeScreened : Pipeline :=
  { pname := "test", pcolumns := [], pscreen := some someFilter }

/-! ### Dict lemmas -/

theorem str_append_assoc (a b c : String) : a ++ b ++ c = a ++ (b ++ c) := by
  cases a with
  | mk da =>
  cases b with
  | mk db =>
  cases c with
  | mk dc =>
  show String.mk (da ++ db ++ dc) = String.mk (da ++ (db ++ dc))
  rw [List.append_assoc]

theorem dictGet_set_self (d : Dict) (k : String) (v : Term) :
    dictGet? (dictSet d k v) k = some v := by
  induction d with
  | nil => simp [dictSet, dictGet?]
  | cons kv rest ih =>
    obtain ⟨k1, v1⟩ := kv
    by_cases h : k1 = k <;> simp [dictSet, dictGet?, h, ih]

theorem dictGet_set_ne (d : Dict) (k k2 : String) (v : Term) (h : k2 ≠ k) :
    dictGet? (dictSet d k v) k2 = dictGet? d k2 := by
  have hne : k ≠ k2 := Ne.symm h
  induction d with
  | nil => simp [dictSet, dictGet?, hne]
  | cons kv rest ih =>
    obtain ⟨k1, v1⟩ := kv
    by_cases h1 : k1 = k
    · subst h1
      simp [dictSet, dictGet?, hne]
    · simp [dictSet, dictGet?, h1, ih]

theorem dictContains_eq_isSome (d : Dict) (k : String) :
    dictContains d k = (dictGet? d k).isSome := by
  induction d with
  | nil => simp [dictContains, dictGet?]
  | cons kv rest ih =>
    obtain ⟨k1, v1⟩ := kv
    by_cases h : k1 = k <;> simp [dictContains, dictGet?, h, ← ih]

theorem dictPop_eq_none_of_get_none (d : Dict) (k : String)
    (h : dictGet? d k = none) : dictPop d k = none := by
  induction d with
  | nil => simp [dictPop]
  | cons kv rest ih =>
    obtain ⟨k1, v1⟩ := kv
    by_cases h1 : k1 = k
    · simp [dictGet?, h1] at h
    · simp [dictGet?, h1] at h
      simp [dictPop, h1, ih h]

theorem dictPop_spec_some (d : Dict) (k : String) (t : Term)
    (h : dictGet? d k = some t) :
    ∃ d1, dictPop d k = some (t, d1) ∧
      ∀ k2, k2 ≠ k → dictGet? d1 k2 = dictGet? d k2 := by
  induction d with
  | nil => simp [dictGet?] at h
  | cons kv rest ih =>
    obtain ⟨k1, v1⟩ := kv
    by_cases h1 : k1 = k
    · subst h1
      simp [dictGet?] at h
      subst h
      refine ⟨rest, by simp [dictPop], ?_⟩
      intro k2 hk2
      simp [dictGet?, Ne.symm hk2]
    · simp [dictGet?, h1] at h
      obtain ⟨d1, hpop, hrest⟩ := ih h
      refine ⟨(k1, v1) :: d1, by simp [dictPop, h1, hpop], ?_⟩
      intro k2 hk2
      by_cases h2 : k1 = k2 <;> simp [dictGet?, h2, hrest k2 hk2]

theorem dictPop_nodup_absent (d : Dict) (k : String) (t : Term) (d1 : Dict)
    (hnd : dictNodupKeys d = true) (h : dictPop d k = some (t, d1)) :
    dictGet? d1 k = none := by
  induction d generalizing d1 with
  | nil => simp [dictPop] at h
  | cons kv rest ih =>
    obtain ⟨k1, v1⟩ := kv
    simp [dictNodupKeys] at hnd
    obtain ⟨hnc, hnd2⟩ := hnd
    by_cases h1 : k1 = k
    · simp [dictPop, h1] at h
      obtain ⟨ht, hd1⟩ := h
      subst hd1
      have hnone : dictGet? rest k1 = none := by
        cases hget : dictGet? rest k1 with
        | none => rfl
        | some t0 =>
          have hcs := dictContains_eq_isSome rest k1
          rw [hnc, hget] at hcs
          simp at hcs
      rw [← h1]
      exact hnone
    · simp [dictPop, h1] at h
      cases hpop : dictPop rest k with
      | none => simp [hpop] at h
      | some pr =>
        obtain ⟨t2, d2⟩ := pr
        simp [hpop] at h
        obtain ⟨ht, hd1⟩ := h
        subst ht
        subst hd1
        simp [dictGet?, h1, ih d2 hnd2 hpop]

/-! ### Claim theorems -/

/-- C1: on a pipeline whose columns already bind `name`, `add(term, name)`
with `overwrite = false` raises a `KeyError` whose message contains the
colliding name, and the container (its columns mapping included) is exactly
as before, `name` still bound to its prior term. -/
theorem Pipeline.add_collision_spec (p : Pipeline) (t : Term) (name : String)
    (h : dictContains p.columns name = true) :
    p.add t name false = (p, Except.error (PyErr.keyErr [keyCollisionMsg name])) ∧
    (∃ pre suf, keyCollisionMsg name = pre ++ name ++ suf) ∧
    dictGet? (p.add t name false).1.columns name = dictGet? p.columns name := by
  have h0 : dictContains p.pcolumns name = true := h
  have h1 : p.add t name false =
      (p, Except.error (PyErr.keyErr [keyCollisionMsg name])) := by
    simp [Pipeline.add, Pipeline.columns, h0]
  refine ⟨h1, ⟨"Column " ++ squote, squote ++ " already exists.", ?_⟩, by rw [h1]⟩
  simp only [keyCollisionMsg]
  exact str_append_assoc ("Column " ++ squote ++ name) squote " already exists."

/-- Witness for C1 at the unit-test input: pipeline with column f, adding a
second term under f without overwrite. -/
theorem Pipeline.add_collision_spec_witness :
    dictContains pipeF.columns "f" = true ∧
    pipeF.add someOtherFactor "f" false =
      (pipeF, Except.error (PyErr.keyErr [keyCollisionMsg "f"])) :=
  ⟨by rfl, (Pipeline.add_collision_spec pipeF someOtherFactor "f" (by rfl)).1⟩

/-- C2: on a pipeline whose columns bind `name` to `t`, `add(t2, name,
overwrite=True)` succeeds, routes the removal through `remove` (the resulting
columns are the assignment of `t2` into the columns left by `remove name`),
and the net effect is a simple replace: `name` maps to `t2`, every other
column is unchanged, and the name and screen slots are untouched. -/
theorem Pipeline.add_overwrite_spec (p : Pipeline) (t t2 : Term) (name : String)
    (h : dictGet? p.columns name = some t) :
    (p.add t2 name true).2 = Except.ok () ∧
    (p.add t2 name true).1.columns = dictSet (p.remove name).1.columns name t2 ∧
    dictGet? (p.add t2 name true).1.columns name = some t2 ∧
    (∀ k, k ≠ name → dictGet? (p.add t2 name true).1.columns k = dictGet? p.columns k) ∧
    (p.add t2 name true).1.name = p.name ∧
    (p.add t2 name true).1.screen = p.screen := by
  simp only [Pipeline.columns] at h ⊢
  obtain ⟨d1, hpop, hrest⟩ := dictPop_spec_some p.pcolumns name t h
  have hc : dictContains p.pcolumns name = true := by
    rw [dictContains_eq_isSome, h]
    rfl
  have hadd : p.add t2 name true =
      ({ p with pcolumns := dictSet d1 name t2 }, Except.ok ()) := by
    simp [Pipeline.add, Pipeline.remove, Pipeline.columns, hc, hpop]
  have hrm : (p.remove name).1 = { p with pcolumns := d1 } := by
    simp [Pipeline.remove, hpop]
  rw [hadd, hrm]
  refine ⟨rfl, rfl, dictGet_set_self d1 name t2, ?_, rfl, rfl⟩
  intro k hk
  rw [dictGet_set_ne d1 name k t2 hk]
  exact hrest k hk

/-- Witness for C2 at the unit-test input: overwriting column f. -/
theorem Pipeline.add_overwrite_spec_witness :
    dictGet? pipeF.columns "f" = some someFactor ∧
    dictGet? (pipeF.add someOtherFactor "f" true).1.columns "f" = some someOtherFactor :=
  ⟨by rfl,
   (Pipeline.add_overwrite_spec pipeF someFactor someOtherFactor "f" (by rfl)).2.2.1⟩

/-- C3: `remove(name)` deletes the entry for `name` (assuming the dict key
uniqueness Python guarantees) and returns the term that was bound to it,
leaving the other columns unchanged; when `name` is absent it raises
`KeyError` whose args tuple is exactly the one-element tuple `(name,)` and
leaves the container unchanged. -/
theorem Pipeline.remove_spec (p : Pipeline) (name : String)
    (hnd : dictNodupKeys p.columns = true) :
    (∀ t, dictGet? p.columns name = some t →
      (p.remove name).2 = Except.ok t ∧
      dictGet? (p.remove name).1.columns name = none ∧
      (∀ k, k ≠ name → dictGet? (p.remove name).1.columns k = dictGet? p.columns k)) ∧
    (dictGet? p.columns name = none →
      p.remove name = (p, Except.error (PyErr.keyErr [name]))) := by
  simp only [Pipeline.columns] at hnd ⊢
  constructor
  · intro t ht
    obtain ⟨d1, hpop, hrest⟩ := dictPop_spec_some p.pcolumns name t ht
    have hr : p.remove name = ({ p with pcolumns := d1 }, Except.ok t) := by
      simp [Pipeline.remove, hpop]
    rw [hr]
    exact ⟨rfl, dictPop_nodup_absent p.pcolumns name t d1 hnd hpop,
      fun k hk => hrest k hk⟩
  · intro hnone
    simp [Pipeline.remove, dictPop_eq_none_of_get_none p.pcolumns name hnone]

/-- Witness for C3: removing the present column f succeeds and returns its
term; removing a missing name raises KeyError with args equal to the
one-element tuple holding that name. -/
theorem Pipeline.remove_spec_witness :
    dictNodupKeys pipeF.columns = true ∧
    (pipeF.remove "f").2 = Except.ok someFactor ∧
    pipeF.remove "missing" = (pipeF, Except.error (PyErr.keyErr ["missing"])) :=
  ⟨by rfl,
   ((Pipeline.remove_spec pipeF "f" (by rfl)).1 someFactor (by rfl)).1,
   (Pipeline.remove_spec pipeF "missing" (by rfl)).2 (by rfl)⟩

/-- C4: on a pipeline whose screen is already `f`, `set_screen(g)` without
overwrite raises `ValueError` whose message literally spells out the two
remediation paths (AND-combine the filters, or pass overwrite=True) and the
screen stays `f`; `set_screen(g, overwrite=True)` replaces it with `g`. -/
theorem Pipeline.set_screen_conflict_spec (p : Pipeline) (f g : Term)
    (h : p.screen = some f) :
    p.set_screen g false = (p, Except.error (PyErr.valueErr setScreenMsg)) ∧
    (p.set_screen g false).1.screen = some f ∧
    (∃ pre mid, setScreenMsg =
      pre ++ "set_screen(filter1 & filter2 & ...)" ++ mid ++
      "set_screen(new_filter, overwrite=True).") ∧
    p.set_screen g true = ({ p with pscreen := some g }, Except.ok ()) ∧
    (p.set_screen g true).1.screen = some g := by
  simp only [Pipeline.screen] at h
  have hfail : p.set_screen g false =
      (p, Except.error (PyErr.valueErr setScreenMsg)) := by
    simp [Pipeline.set_screen, h]
  have hok : p.set_screen g true = ({ p with pscreen := some g }, Except.ok ()) := by
    simp [Pipeline.set_screen, h]
  refine ⟨hfail, by rw [hfail]; exact h, ⟨?_, ?_, ?_⟩, hok, by rw [hok]; rfl⟩
  · exact "set_screen() called with overwrite=False and screen already set.\n" ++
      "If you want to apply multiple filters as a screen use "
  · exact ".\nIf you want to replace the previous screen with a new one, use "
  · rfl

/-- Witness for C4 at the unit-test input: a pipeline with a screen set. -/
theorem Pipeline.set_screen_conflict_spec_witness :
    pipeScreened.screen = some someFilter ∧
    pipeScreened.set_screen someOtherFilter false =
      (pipeScreened, Except.error (PyErr.valueErr setScreenMsg)) ∧
    (pipeScreened.set_screen someOtherFilter true).1.screen = some someOtherFilter := by
  have h := Pipeline.set_screen_conflict_spec pipeScreened someFilter someOtherFilter (by rfl)
  exact ⟨by rfl, h.1, h.2.2.2.2⟩

/-- C5: `to_graph(screen_name, default_screen)` hands the graph compiler a
shallow copy of the columns extended with `screen_name` bound to the screen
when one is set and to `default_screen` otherwise, and returns the artifact
built from exactly that mapping; when `screen_name` names an existing column
the copy silently binds it to the effective screen instead. -/
theorem Pipeline.to_graph_spec (p : Pipeline) (screen_name : String)
    (default_screen : Term) :
    (p.to_graph screen_name default_screen).2 =
      TermGraph.mk (dictSet (dictCopy p.columns) screen_name
        (p.screen.getD default_screen)) ∧
    dictGet? (p.to_graph screen_name default_screen).2.handed screen_name =
      some (p.screen.getD default_screen) ∧
    (∀ k, k ≠ screen_name →
      dictGet? (p.to_graph screen_name default_screen).2.handed k =
        dictGet? p.columns k) := by
  have hg : (p.to_graph screen_name default_screen).2 =
      TermGraph.mk (dictSet (dictCopy p.columns) screen_name
        (p.screen.getD default_screen)) := by
    cases hs : p.pscreen <;>
      simp [Pipeline.to_graph, Pipeline.screen, Pipeline.columns, hs]
  refine ⟨hg, ?_, ?_⟩
  · rw [hg]
    exact dictGet_set_self (dictCopy p.columns) screen_name
      (p.screen.getD default_screen)
  · intro k hk
    rw [hg]
    exact dictGet_set_ne (dictCopy p.columns) screen_name k
      (p.screen.getD default_screen) hk

/-- Witness for C5: projecting pipeF under the colliding key f silently binds
f to the screen in the handed mapping, while another key is looked up in the
original columns. -/
theorem Pipeline.to_graph_spec_witness :
    dictGet? (pipeF.to_graph "f" someFilter).2.handed "f" = some someFilter ∧
    ("g" ≠ "f" ∧
      dictGet? (pipeF.to_graph "f" someFilter).2.handed "g" =
        dictGet? pipeF.columns "g") := by
  have h := Pipeline.to_graph_spec pipeF "f" someFilter
  exact ⟨h.2.1, by decide, h.2.2 "g" (by decide)⟩

/-- C6: `to_graph` never mutates the container: the pipeline state after the
call, its columns and its screen are exactly what they were before. -/
theorem Pipeline.to_graph_no_mutation (p : Pipeline) (screen_name : String)
    (default_screen : Term) :
    (p.to_graph screen_name default_screen).1 = p ∧
    (p.to_graph screen_name default_screen).1.columns = p.columns ∧
    (p.to_graph screen_name default_screen).1.screen = p.screen :=
  ⟨rfl, rfl, rfl⟩

/-- C7: whenever `add`, `remove` or `set_screen` (called through the
argument-validating wrappers, so type mismatches, key collisions, missing
keys and screen conflicts are all covered) raises an error, the container
state after the call equals the state before it: no partial mutation. -/
theorem Pipeline.failure_leaves_state (p : Pipeline) (a b s : PyVal)
    (ow1 ow2 : Bool) :
    (∀ e, (p.addPy a b ow1).2 = Except.error e → (p.addPy a b ow1).1 = p) ∧
    (∀ e, (p.removePy b).2 = Except.error e → (p.removePy b).1 = p) ∧
    (∀ e, (p.set_screenPy s ow2).2 = Except.error e → (p.set_screenPy s ow2).1 = p) := by
  refine ⟨?_, ?_, ?_⟩
  · intro e he
    cases a with
    | term t =>
      cases b with
      | str n =>
        simp only [Pipeline.addPy] at he ⊢
        by_cases hc : dictContains p.pcolumns n
        · cases ow1 with
          | false => simp [Pipeline.add, Pipeline.columns, hc]
          | true =>
            cases hpop : dictPop p.pcolumns n with
            | none => simp [Pipeline.add, Pipeline.remove, Pipeline.columns, hc, hpop]
            | some pr =>
              simp [Pipeline.add, Pipeline.remove, Pipeline.columns, hc, hpop] at he
        · simp [Pipeline.add, Pipeline.columns, hc] at he
      | dict d => rfl
      | term t2 => rfl
      | pyNone => rfl
      | intV m => rfl
    | str s2 => rfl
    | dict d => rfl
    | pyNone => rfl
    | intV m => rfl
  · intro e he
    cases b with
    | str n =>
      simp only [Pipeline.removePy] at he ⊢
      cases hpop : dictPop p.pcolumns n with
      | none => simp [Pipeline.remove, hpop]
      | some pr => simp [Pipeline.remove, hpop] at he
    | dict d => rfl
    | term t2 => rfl
    | pyNone => rfl
    | intV m => rfl
  · intro e he
    cases s with
    | term t =>
      simp only [Pipeline.set_screenPy] at he ⊢
      by_cases hf : t.isFilterCap
      · simp only [hf, if_true] at he ⊢
        by_cases hcond : (p.pscreen.isSome && !ow2)
        · simp [Pipeline.set_screen, hcond]
        · simp [Pipeline.set_screen, hcond] at he
      · simp [hf]
    | str s2 => rfl
    | dict d => rfl
    | pyNone => rfl
    | intV m => rfl

/-- Witness for C7: a key collision, a type mismatch and a screen conflict
each leave the concrete container untouched. -/
theorem Pipeline.failure_leaves_state_witness :
    ((pipeF.addPy (PyVal.term someOtherFactor) (PyVal.str "f") false).2 =
        Except.error (PyErr.keyErr [keyCollisionMsg "f"]) ∧
      (pipeF.addPy (PyVal.term someOtherFactor) (PyVal.str "f") false).1 = pipeF) ∧
    ((pipeF.removePy (PyVal.intV 1)).2 = Except.error PyErr.typeErr ∧
      (pipeF.removePy (PyVal.intV 1)).1 = pipeF) ∧
    ((pipeScreened.set_screenPy (PyVal.term someOtherFilter) false).2 =
        Except.error (PyErr.valueErr setScreenMsg) ∧
      (pipeScreened.set_screenPy (PyVal.term someOtherFilter) false).1 = pipeScreened) := by
  refine ⟨⟨by rfl, ?_⟩, ⟨by rfl, ?_⟩, ⟨by rfl, ?_⟩⟩
  · exact (Pipeline.failure_leaves_state pipeF (PyVal.term someOtherFactor)
      (PyVal.str "f") PyVal.pyNone false false).1 _ (by rfl)
  · exact (Pipeline.failure_leaves_state pipeF PyVal.pyNone (PyVal.intV 1)
      PyVal.pyNone false false).2.1 _ (by rfl)
  · exact (Pipeline.failure_leaves_state pipeScreened PyVal.pyNone PyVal.pyNone
      (PyVal.term someOtherFilter) false false).2.2 _ (by rfl)

/-- C8: constructing with a non-string name, a columns argument that is
neither absent nor a dict, or a screen that is a Term but not a Filter,
fails with a type error and produces no container. -/
theorem Pipeline.init_type_error (name columns screen : PyVal)
    (h : name.isStr = false ∨
      (columns.isNone = false ∧ columns.isDict = false) ∨
      (screen.isTerm = true ∧ screen.isFilterVal = false)) :
    Pipeline.init name columns screen = Except.error PyErr.typeErr := by
  rcases h with h | ⟨h1, h2⟩ | ⟨h1, h2⟩
  · simp [Pipeline.init, h]
  · by_cases hn : name.isStr <;> simp [Pipeline.init, hn, h1, h2]
  · cases screen with
    | term t =>
      simp only [PyVal.isFilterVal] at h2
      by_cases hn : name.isStr
      · by_cases hcn : (columns.isNone || columns.isDict) <;>
          simp [Pipeline.init, hn, hcn, PyVal.isNone, PyVal.isFilterVal, h2]
      · simp [Pipeline.init, hn]
    | str s => simp [PyVal.isTerm] at h1
    | dict d => simp [PyVal.isTerm] at h1
    | pyNone => simp [PyVal.isTerm] at h1
    | intV n => simp [PyVal.isTerm] at h1

/-- Witness for C8: the three failing constructions of the unit tests. -/
theorem Pipeline.init_type_error_witness :
    Pipeline.init (PyVal.intV 1) PyVal.pyNone PyVal.pyNone =
      Except.error PyErr.typeErr ∧
    Pipeline.init (PyVal.str "test") (PyVal.intV 1) PyVal.pyNone =
      Except.error PyErr.typeErr ∧
    Pipeline.init (PyVal.str "test") (PyVal.dict []) (PyVal.term someFactor) =
      Except.error PyErr.typeErr :=
  ⟨Pipeline.init_type_error _ _ _ (Or.inl (by rfl)),
   Pipeline.init_type_error _ _ _ (Or.inr (Or.inl ⟨by rfl, by rfl⟩)),
   Pipeline.init_type_error _ _ _ (Or.inr (Or.inr ⟨by rfl, by rfl⟩))⟩

/-- C9: constructing with only a string name yields a container with that
name, an empty columns mapping and no screen. -/
theorem Pipeline.init_defaults (n : String) :
    Pipeline.init (PyVal.str n) PyVal.pyNone PyVal.pyNone =
      Except.ok { pname := n, pcolumns := [], pscreen := none } := rfl

/-- C10: each mutation touches only its own field: `add` and `remove` leave
the name and the screen as they were, and `set_screen` leaves the name and
the columns mapping as they were (on success and on failure alike, so in
particular for every successful call). -/
theorem Pipeline.mutation_frame_spec (p : Pipeline) (t s : Term) (n : String)
    (ow1 ow2 : Bool) :
    ((p.add t n ow1).1.name = p.name ∧ (p.add t n ow1).1.screen = p.screen) ∧
    ((p.remove n).1.name = p.name ∧ (p.remove n).1.screen = p.screen) ∧
    ((p.set_screen s ow2).1.name = p.name ∧
      (p.set_screen s ow2).1.columns = p.columns) := by
  refine ⟨?_, ?_, ?_⟩
  · by_cases hc : dictContains p.pcolumns n
    · cases ow1 with
      | false =>
        simp [Pipeline.add, Pipeline.columns, Pipeline.name, Pipeline.screen, hc]
      | true =>
        cases hpop : dictPop p.pcolumns n with
        | none =>
          simp [Pipeline.add, Pipeline.remove, Pipeline.columns, Pipeline.name,
            Pipeline.screen, hc, hpop]
        | some pr =>
          simp [Pipeline.add, Pipeline.remove, Pipeline.columns, Pipeline.name,
            Pipeline.screen, hc, hpop]
    · simp [Pipeline.add, Pipeline.columns, Pipeline.name, Pipeline.screen, hc]
  · cases hpop : dictPop p.pcolumns n with
    | none => simp [Pipeline.remove, Pipeline.name, Pipeline.screen, hpop]
    | some pr => simp [Pipeline.remove, Pipeline.name, Pipeline.screen, hpop]
  · by_cases hcond : (p.pscreen.isSome && !ow2)
    · simp [Pipeline.set_screen, Pipeline.name, Pipeline.columns, hcond]
    · simp [Pipeline.set_screen, Pipeline.name, Pipeline.columns, hcond]
